import Mathlib

set_option linter.unusedVariables false

/-!
Formal model of the PrusaLink printer-adapter core, shallowly embedded from
the Python sources: the three-layer state manager
(`informers/state_manager.py`), the command handlers
(`command_handlers.py`), and the value refresh engine
(`structures/info_updater.py`).  Pure functions are translated to Lean
functions; stateful methods become explicit state-passing functions
returning the new state together with the list of emitted signals.
-/

/-- Printer states, from prusa.connect.printer.const.State. -/
inductive State where
  | READY
  | BUSY
  | PRINTING
  | PAUSED
  | FINISHED
  | STOPPED
  | ERROR
  | ATTENTION
  | IDLE
deriving DecidableEq, Repr

/-- State-change sources, from prusa.connect.printer.const.Source. -/
inductive Source where
  | CONNECT
  | USER
  | MARLIN
  | HW
  | FIRMWARE
  | WUI
  | SERIAL
deriving DecidableEq, Repr

/-- Constant STATE_HISTORY_SIZE from const.py. -/
def STATE_HISTORY_SIZE : Nat := 10

/-- Constant ERROR_REASON_TIMEOUT from const.py (seconds). -/
def ERROR_REASON_TIMEOUT : Nat := 2

/-- Constant RESET_PIN from const.py (BCM pin of the reset line). -/
def RESET_PIN : Nat := 22

/-- Constant SD_MOUNT_NAME from const.py. -/
def SD_MOUNT_NAME : String := "SD Card"

/-- StateChange from state_manager.py: a record describing an expected state
change.  The Python dicts map states to an optional source, so the
association lists here carry `Option Source` values. -/
structure StateChange where
  command_id : Option Nat
  to_states : List (State × Option Source)
  from_states : List (State × Option Source)
  default_source : Option Source
  reason : Option String
  checked : Bool
deriving DecidableEq, Repr

/-- Builder mirroring the Python StateChange constructor, arguments in
declaration order: command_id, to_states, from_states, default_source,
reason, checked. -/
def StateChange.make (command_id : Option Nat)
    (to_states from_states : List (State × Option Source))
    (default_source : Option Source) (reason : Option String)
    (checked : Bool) : StateChange :=
  ⟨command_id, to_states, from_states, default_source, reason, checked⟩

/-- StateManagerData from structures/module_data_classes.py: the actual
state layers plus reporting bookkeeping. -/
structure SMData where
  base_state : State
  printing_state : Option State
  override_state : Option State
  state_history : List State
  last_state : State
  current_state : State
  error_count : Int
  awaiting_error_reason : Bool
deriving DecidableEq, Repr

/-- StateManager instance state: its data record plus the expectation slot,
the fan-error latch, the startup guard and the one config flag read by
instruction_confirmed. -/
structure SM where
  data : SMData
  expected_state_change : Option StateChange
  fan_error_name : Option String
  unsure_whether_printing : Bool
  m0_after_prints : Bool
deriving DecidableEq, Repr

/-- Initial state manager as built in StateManager.__init__ (base BUSY,
no printing or override layer, error_count 0). -/
def initSM (m0 : Bool) : SM :=
  { data :=
      { base_state := State.BUSY
        printing_state := none
        override_state := none
        state_history := []
        last_state := State.BUSY
        current_state := State.BUSY
        error_count := 0
        awaiting_error_reason := false }
    expected_state_change := none
    fan_error_name := none
    unsure_whether_printing := true
    m0_after_prints := m0 }

/-- StateManager.get_state: override layer wins, then printing, then base. -/
def get_state (d : SMData) : State :=
  match d.override_state with
  | some s => s
  | none =>
    match d.printing_state with
    | some s => s
    | none => d.base_state

/-- Arguments of the state_changed signal. -/
structure StateChangedArgs where
  from_state : State
  to_state : State
  command_id : Option Nat
  source : Option Source
  reason : Option String
  checked : Bool
deriving DecidableEq, Repr

/-- Signals emitted by the state manager. -/
inductive Emit where
  | preStateChange (command_id : Option Nat)
  | stateChanged (args : StateChangedArgs)
  | postStateChange
deriving DecidableEq, Repr

/-- StateManager.is_expected: the change is expected when the new state is a
key of to_states, the old one a key of from_states, or a default source is
set. -/
def is_expected (sm : SM) : Bool :=
  match sm.expected_state_change with
  | none => false
  | some state_change =>
    (state_change.to_states.lookup sm.data.current_state).isSome
      || (state_change.from_states.lookup sm.data.last_state).isSome
      || state_change.default_source.isSome

/-- Selection step of StateManager.get_expected_source: a conflicting pair
picks the from side, otherwise the first available of [from, to], and a
missing source falls back to the default. -/
def pick_expected_source (source_from source_to default_source : Option Source) :
    Option Source :=
  let source : Option Source :=
    if source_from.isSome ∧ source_to.isSome ∧ source_to ≠ source_from then
      source_from
    else
      match source_from with
      | some s => some s
      | none => source_to
  match source with
  | some s => some s
  | none => default_source

/-- StateManager.get_expected_source: from_states match wins over a
conflicting to_states match, otherwise the first available of the two,
otherwise default_source.  Keys present with a None value provide no
source, as in the Python dict of optional sources. -/
def get_expected_source (sm : SM) : Option Source :=
  match sm.expected_state_change with
  | none => none
  | some state_change =>
    pick_expected_source
      ((state_change.from_states.lookup sm.data.last_state).join)
      ((state_change.to_states.lookup sm.data.current_state).join)
      state_change.default_source

/-- Appending to a deque with maxlen STATE_HISTORY_SIZE. -/
def histAppend (h : List State) (s : State) : List State :=
  let h2 := h ++ [s]
  if STATE_HISTORY_SIZE < h2.length then h2.drop (h2.length - STATE_HISTORY_SIZE) else h2

/-- StateManager.state_may_have_changed: recomputes the reported state; if
it moved, updates last/current/history, attributes the change to the
expectation if one matches, clears the expectation slot and emits the
pre/state_changed/post signals. -/
def state_may_have_changed (sm : SM) : SM × List Emit :=
  if get_state sm.data ≠ sm.data.current_state then
    let d1 := { sm.data with last_state := sm.data.current_state }
    let d2 := { d1 with current_state := get_state d1 }
    let d3 := { d2 with state_history := histAppend d2.state_history d2.current_state }
    let sm1 := { sm with data := d3 }
    let info : Option Nat × Option Source × Option String × Bool :=
      if is_expected sm1 then
        match sm1.expected_state_change with
        | some state_change =>
          (state_change.command_id, get_expected_source sm1,
            state_change.reason, state_change.checked)
        | none => (none, none, none, false)
      else (none, none, none, false)
    let sm2 := { sm1 with expected_state_change := none }
    (sm2,
      [Emit.preStateChange info.1,
       Emit.stateChanged
         ⟨d3.last_state, d3.current_state, info.1, info.2.1, info.2.2.1, info.2.2.2⟩,
       Emit.postStateChange])
  else (sm, [])

/-- Pre-step of the state_influencer decorator: when no expectation is set
and the decorator has a default one, install it and remember having done
so. -/
def expectPre (state_change : Option StateChange) (sm : SM) : Bool × SM :=
  if sm.expected_state_change = none ∧ state_change.isSome then
    (true, { sm with expected_state_change := state_change })
  else
    (false, sm)

/-- The state_influencer decorator: take the state lock, maybe install the
default expectation, run the body, call state_may_have_changed, and drop
the default expectation again if this call installed it. -/
def influenced (state_change : Option StateChange) (f : SM → SM) (sm : SM) :
    SM × List Emit :=
  let p := expectPre state_change sm
  let sm2 := f p.2
  let r := state_may_have_changed sm2
  (if p.1 then { r.1 with expected_state_change := none } else r.1, r.2)

/-- Body of StateManager.printing: if not printing or paused, sets the
printing state to PRINTING and clears the startup guard. -/
def printing_body (sm : SM) : SM :=
  if sm.data.printing_state = none ∨ sm.data.printing_state = some State.PAUSED then
    { sm with
        unsure_whether_printing := false
        data := { sm.data with printing_state := some State.PRINTING } }
  else sm

/-- Second step of StateManager.not_printing: clears the printing state
unless it is FINISHED or STOPPED, which need a manual confirmation. -/
def not_printing_clear (sm : SM) : SM :=
  if ¬(sm.data.printing_state = some State.FINISHED
        ∨ sm.data.printing_state = some State.STOPPED) then
    { sm with data := { sm.data with printing_state := none } }
  else sm

/-- Body of StateManager.not_printing. -/
def not_printing_body (sm : SM) : SM :=
  not_printing_clear { sm with unsure_whether_printing := false }

/-- Body of StateManager.finished. -/
def finished_body (sm : SM) : SM :=
  if sm.data.printing_state = some State.PRINTING then
    { sm with data := { sm.data with printing_state := some State.FINISHED } }
  else sm

/-- Body of StateManager.busy. -/
def busy_body (sm : SM) : SM :=
  if sm.data.base_state = State.READY then
    { sm with data := { sm.data with base_state := State.BUSY } }
  else sm

/-- Body of StateManager.paused. -/
def paused_body (sm : SM) : SM :=
  if sm.data.printing_state = some State.PRINTING ∨ sm.data.printing_state = none then
    { sm with
        unsure_whether_printing := false
        data := { sm.data with printing_state := some State.PAUSED } }
  else sm

/-- Body of StateManager.resumed. -/
def resumed_body (sm : SM) : SM :=
  if sm.data.printing_state = some State.PAUSED then
    { sm with
        unsure_whether_printing := false
        data := { sm.data with printing_state := some State.PRINTING } }
  else sm

/-- Body of StateManager.stopped. -/
def stopped_body (sm : SM) : SM :=
  if sm.data.printing_state = some State.PRINTING
      ∨ sm.data.printing_state = some State.PAUSED then
    { sm with
        unsure_whether_printing := false
        data := { sm.data with printing_state := some State.STOPPED } }
  else sm

/-- Second step of StateManager.instruction_confirmed: BUSY base becomes
READY. -/
def instruction_confirmed_base (sm : SM) : SM :=
  if sm.data.base_state = State.BUSY then
    { sm with data := { sm.data with base_state := State.READY } }
  else sm

/-- Third step of StateManager.instruction_confirmed: without the
M0_after_prints config, STOPPED and FINISHED are cleared. -/
def instruction_confirmed_m0 (sm : SM) : SM :=
  if ¬sm.m0_after_prints
      ∧ (sm.data.printing_state = some State.STOPPED
          ∨ sm.data.printing_state = some State.FINISHED) then
    { sm with data := { sm.data with printing_state := none } }
  else sm

/-- Fourth step of StateManager.instruction_confirmed: non-ERROR override
states are cleared. -/
def instruction_confirmed_override (sm : SM) : SM :=
  if sm.data.override_state ≠ none ∧ sm.data.override_state ≠ some State.ERROR then
    { sm with data := { sm.data with override_state := none } }
  else sm

/-- Body of StateManager.instruction_confirmed: does nothing while unsure
whether printing, otherwise clears the temporary states. -/
def instruction_confirmed_body (sm : SM) : SM :=
  if sm.unsure_whether_printing then sm
  else
    instruction_confirmed_override
      (instruction_confirmed_m0 (instruction_confirmed_base sm))

/-- Body of StateManager.printer_checked. -/
def printer_checked_body (sm : SM) : SM :=
  if sm.data.printing_state = some State.FINISHED
      ∨ sm.data.printing_state = some State.STOPPED then
    { sm with data := { sm.data with printing_state := none } }
  else sm

/-- First step of StateManager.attention: a latched fan error overrides the
expected change with one carrying the fan-error reason, and clears the
latch. -/
def attention_latch (sm : SM) : SM :=
  match sm.fan_error_name with
  | some name =>
    { sm with
        expected_state_change := some
          (StateChange.make none [(State.ATTENTION, some Source.FIRMWARE)] [] none (some (name ++ " fan error")) false)
        fan_error_name := none }
  | none => sm

/-- Second step of StateManager.attention: set the ATTENTION override
unless the print just FINISHED or STOPPED. -/
def attention_set (sm : SM) : SM :=
  if ¬(sm.data.printing_state = some State.FINISHED
        ∨ sm.data.printing_state = some State.STOPPED) then
    { sm with data := { sm.data with override_state := some State.ATTENTION } }
  else sm

/-- Body of StateManager.attention: consume a latched fan error, then set
the ATTENTION override unless the print just FINISHED or STOPPED. -/
def attention_body (sm : SM) : SM :=
  attention_set (attention_latch sm)

/-- Body of StateManager.error. -/
def error_body (sm : SM) : SM :=
  { sm with data := { sm.data with override_state := some State.ERROR } }

/-- Body of StateManager.error_resolved: clears the ERROR override once all
errors are resolved. -/
def error_resolved_body (sm : SM) : SM :=
  if sm.data.override_state = some State.ERROR ∧ sm.data.error_count = 0 then
    { sm with data := { sm.data with override_state := none } }
  else sm

/-- Body of StateManager.serial_error. -/
def serial_error_body (sm : SM) : SM :=
  { sm with data := { sm.data with override_state := some State.ERROR } }

/-- Body of StateManager.serial_error_resolved. -/
def serial_error_resolved_body (sm : SM) : SM :=
  if sm.data.override_state = some State.ERROR then
    { sm with data := { sm.data with override_state := none } }
  else sm

/-- Decorated StateManager.printing. -/
def printing_op : SM → SM × List Emit :=
  influenced (some (StateChange.make none [(State.PRINTING, some Source.USER)] [] none none false)) printing_body

/-- Decorated StateManager.not_printing. -/
def not_printing_op : SM → SM × List Emit :=
  influenced (some (StateChange.make none [] [(State.PRINTING, some Source.MARLIN),
                     (State.PAUSED, some Source.MARLIN)] none none false)) not_printing_body

/-- Decorated StateManager.finished. -/
def finished_op : SM → SM × List Emit :=
  influenced (some (StateChange.make none [(State.FINISHED, some Source.MARLIN)] [] none none false)) finished_body

/-- Decorated StateManager.busy. -/
def busy_op : SM → SM × List Emit :=
  influenced (some (StateChange.make none [(State.BUSY, some Source.MARLIN)] [] none none false)) busy_body

/-- Decorated StateManager.paused. -/
def paused_op : SM → SM × List Emit :=
  influenced (some (StateChange.make none [(State.PAUSED, some Source.USER)] [] none none false)) paused_body

/-- Decorated StateManager.resumed. -/
def resumed_op : SM → SM × List Emit :=
  influenced (some (StateChange.make none [(State.PRINTING, some Source.USER)] [] none none false)) resumed_body

/-- Decorated StateManager.stopped. -/
def stopped_op : SM → SM × List Emit :=
  influenced (some (StateChange.make none [] [(State.PRINTING, some Source.USER)] none none false)) stopped_body

/-- Decorated StateManager.instruction_confirmed. -/
def instruction_confirmed_op : SM → SM × List Emit :=
  influenced (some (StateChange.make none [(State.READY, some Source.MARLIN)] [(State.ATTENTION, some Source.USER),
                     (State.ERROR, some Source.MARLIN),
                     (State.BUSY, some Source.HW),
                     (State.FINISHED, some Source.MARLIN),
                     (State.STOPPED, some Source.MARLIN)] none none false)) instruction_confirmed_body

/-- Decorated StateManager.printer_checked. -/
def printer_checked_op : SM → SM × List Emit :=
  influenced (some (StateChange.make none [(State.READY, some Source.MARLIN)] [(State.FINISHED, some Source.USER),
                     (State.STOPPED, some Source.USER)] none none true)) printer_checked_body

/-- Decorated StateManager.attention. -/
def attention_op : SM → SM × List Emit :=
  influenced (some (StateChange.make none [(State.ATTENTION, some Source.USER)] [] none none false)) attention_body

/-- Decorated StateManager.error. -/
def error_op : SM → SM × List Emit :=
  influenced (some (StateChange.make none [(State.ERROR, some Source.WUI)] [] none none false)) error_body

/-- Decorated StateManager.error_resolved. -/
def error_resolved_op : SM → SM × List Emit :=
  influenced (some (StateChange.make none [] [(State.ERROR, some Source.USER)] none none false)) error_resolved_body

/-- Decorated StateManager.serial_error. -/
def serial_error_op : SM → SM × List Emit :=
  influenced (some (StateChange.make none [(State.ERROR, some Source.SERIAL)] [] none none false)) serial_error_body

/-- Decorated StateManager.serial_error_resolved. -/
def serial_error_resolved_op : SM → SM × List Emit :=
  influenced (some (StateChange.make none [(State.READY, some Source.SERIAL)] [] none none false)) serial_error_resolved_body

/-- StateManager.link_error_detected: bump the error counter, then raise
the ERROR override. -/
def link_error_detected (sm : SM) : SM × List Emit :=
  error_op { sm with data := { sm.data with error_count := sm.data.error_count + 1 } }

/-- Second step of StateManager.link_error_resolved: once the counter is
zero, resolve the ERROR override. -/
def link_error_resolved_check (sm : SM) : SM × List Emit :=
  if sm.data.error_count = 0 then error_resolved_op sm else (sm, [])

/-- StateManager.link_error_resolved: drop the error counter and, when it
reaches zero, resolve the ERROR override. -/
def link_error_resolved (sm : SM) : SM × List Emit :=
  link_error_resolved_check
    { sm with data := { sm.data with error_count := sm.data.error_count - 1 } }

/-- StateManager.stopped_or_not_printing. -/
def stopped_or_not_printing (sm : SM) : SM × List Emit :=
  if sm.data.printing_state = some State.PRINTING then stopped_op sm
  else not_printing_op sm

/-- State-manager entry points exercised by the serial handlers and the
other components (the mutators of state_manager.py). -/
inductive SMOp where
  | busy
  | printing
  | paused
  | resumed
  | stopped
  | finished
  | not_printing
  | stopped_or_not_printing
  | attention
  | error
  | error_resolved
  | serial_error
  | serial_error_resolved
  | instruction_confirmed
  | printer_checked
  | link_error_detected
  | link_error_resolved
  | fan_error (name : String)
  | expect (c : StateChange)
  | stop_expecting
deriving DecidableEq, Repr

/-- Dispatch of one state-manager entry point. -/
def applyOp : SMOp → SM → SM × List Emit
  | SMOp.busy, sm => busy_op sm
  | SMOp.printing, sm => printing_op sm
  | SMOp.paused, sm => paused_op sm
  | SMOp.resumed, sm => resumed_op sm
  | SMOp.stopped, sm => stopped_op sm
  | SMOp.finished, sm => finished_op sm
  | SMOp.not_printing, sm => not_printing_op sm
  | SMOp.stopped_or_not_printing, sm => stopped_or_not_printing sm
  | SMOp.attention, sm => attention_op sm
  | SMOp.error, sm => error_op sm
  | SMOp.error_resolved, sm => error_resolved_op sm
  | SMOp.serial_error, sm => serial_error_op sm
  | SMOp.serial_error_resolved, sm => serial_error_resolved_op sm
  | SMOp.instruction_confirmed, sm => instruction_confirmed_op sm
  | SMOp.printer_checked, sm => printer_checked_op sm
  | SMOp.link_error_detected, sm => link_error_detected sm
  | SMOp.link_error_resolved, sm => link_error_resolved sm
  | SMOp.fan_error name, sm => ({ sm with fan_error_name := some name }, [])
  | SMOp.expect c, sm => ({ sm with expected_state_change := some c }, [])
  | SMOp.stop_expecting, sm => ({ sm with expected_state_change := none }, [])

/-- Run of a sequence of entry points, collecting all emitted signals. -/
def runOps : List SMOp → SM → SM × List Emit
  | [], sm => (sm, [])
  | op :: rest, sm =>
    let r := applyOp op sm
    let r2 := runOps rest r.1
    (r2.1, r.2 ++ r2.2)

/-- Projection of the (from_state, to_state) pairs of the emitted
state_changed signals. -/
def changedPairs (es : List Emit) : List (State × State) :=
  es.filterMap (fun e =>
    match e with
    | Emit.stateChanged a => some (a.from_state, a.to_state)
    | _ => none)

/-- Reported-state invariant: the externally visible current_state agrees
with the fusion of the three layers. -/
def reported_inv (sm : SM) : Prop :=
  sm.data.current_state = get_state sm.data

lemma get_state_congr (d d' : SMData) (h1 : d.override_state = d'.override_state)
    (h2 : d.printing_state = d'.printing_state) (h3 : d.base_state = d'.base_state) :
    get_state d = get_state d' := by
  unfold get_state
  rw [h1, h2, h3]

lemma smhc_spec (sm : SM) :
    (state_may_have_changed sm).1.data.current_state = get_state sm.data
    ∧ (state_may_have_changed sm).1.data.override_state = sm.data.override_state
    ∧ (state_may_have_changed sm).1.data.printing_state = sm.data.printing_state
    ∧ (state_may_have_changed sm).1.data.base_state = sm.data.base_state
    ∧ (state_may_have_changed sm).1.data.error_count = sm.data.error_count
    ∧ (state_may_have_changed sm).1.fan_error_name = sm.fan_error_name
    ∧ changedPairs (state_may_have_changed sm).2 =
        (if get_state sm.data = sm.data.current_state then []
         else [(sm.data.current_state, get_state sm.data)]) := by
  unfold state_may_have_changed
  by_cases h : get_state sm.data = sm.data.current_state
  · simp [h, changedPairs]
  · simp [h, changedPairs]
    exact get_state_congr _ _ rfl rfl rfl

lemma expectPre_data (c : Option StateChange) (sm : SM) :
    ((expectPre c sm).2).data = sm.data ∧ ((expectPre c sm).2).fan_error_name = sm.fan_error_name := by
  unfold expectPre
  split <;> exact ⟨rfl, rfl⟩

lemma influenced_proj (c : Option StateChange) (f : SM → SM) (sm : SM) :
    (influenced c f sm).1.data.current_state = get_state (f (expectPre c sm).2).data
    ∧ (influenced c f sm).1.data.override_state = (f (expectPre c sm).2).data.override_state
    ∧ (influenced c f sm).1.data.printing_state = (f (expectPre c sm).2).data.printing_state
    ∧ (influenced c f sm).1.data.base_state = (f (expectPre c sm).2).data.base_state
    ∧ (influenced c f sm).1.data.error_count = (f (expectPre c sm).2).data.error_count
    ∧ (influenced c f sm).1.fan_error_name = (f (expectPre c sm).2).fan_error_name
    ∧ changedPairs (influenced c f sm).2 =
        (if get_state (f (expectPre c sm).2).data = (f (expectPre c sm).2).data.current_state
         then []
         else [((f (expectPre c sm).2).data.current_state,
                get_state (f (expectPre c sm).2).data)]) := by
  unfold influenced
  have hs := smhc_spec (f (expectPre c sm).2)
  by_cases hp : (expectPre c sm).1
  · simp only [hp, if_true]
    exact ⟨hs.1, hs.2.1, hs.2.2.1, hs.2.2.2.1, hs.2.2.2.2.1, hs.2.2.2.2.2.1,
      hs.2.2.2.2.2.2⟩
  · simp only [hp, if_false]
    exact hs

lemma influenced_current (c : Option StateChange) (f : SM → SM)
    (hcur : ∀ s, (f s).data.current_state = s.data.current_state) (sm : SM) :
    reported_inv (influenced c f sm).1 := by
  have h := influenced_proj c f sm
  unfold reported_inv
  rw [h.1]
  exact (get_state_congr _ _ h.2.1 h.2.2.1 h.2.2.2.1).symm

lemma influenced_pairs (c : Option StateChange) (f : SM → SM)
    (hcur : ∀ s, (f s).data.current_state = s.data.current_state) (sm : SM) :
    changedPairs (influenced c f sm).2 =
      (if (influenced c f sm).1.data.current_state = sm.data.current_state then []
       else [(sm.data.current_state, (influenced c f sm).1.data.current_state)]) := by
  have h := influenced_proj c f sm
  have hc : (f (expectPre c sm).2).data.current_state = sm.data.current_state := by
    rw [hcur, (expectPre_data c sm).1]
  rw [h.2.2.2.2.2.2, hc, ← h.1]

lemma printing_body_proj (s : SM) :
    (printing_body s).data.current_state = s.data.current_state
    ∧ (printing_body s).data.error_count = s.data.error_count
    ∧ (printing_body s).data.override_state = s.data.override_state := by
  unfold printing_body
  split <;> exact ⟨rfl, rfl, rfl⟩

lemma not_printing_body_proj (s : SM) :
    (not_printing_body s).data.current_state = s.data.current_state
    ∧ (not_printing_body s).data.error_count = s.data.error_count
    ∧ (not_printing_body s).data.override_state = s.data.override_state := by
  unfold not_printing_body not_printing_clear
  split <;> exact ⟨rfl, rfl, rfl⟩

lemma finished_body_proj (s : SM) :
    (finished_body s).data.current_state = s.data.current_state
    ∧ (finished_body s).data.error_count = s.data.error_count
    ∧ (finished_body s).data.override_state = s.data.override_state := by
  unfold finished_body
  split <;> exact ⟨rfl, rfl, rfl⟩

lemma busy_body_proj (s : SM) :
    (busy_body s).data.current_state = s.data.current_state
    ∧ (busy_body s).data.error_count = s.data.error_count
    ∧ (busy_body s).data.override_state = s.data.override_state := by
  unfold busy_body
  split <;> exact ⟨rfl, rfl, rfl⟩

lemma paused_body_proj (s : SM) :
    (paused_body s).data.current_state = s.data.current_state
    ∧ (paused_body s).data.error_count = s.data.error_count
    ∧ (paused_body s).data.override_state = s.data.override_state := by
  unfold paused_body
  split <;> exact ⟨rfl, rfl, rfl⟩

lemma resumed_body_proj (s : SM) :
    (resumed_body s).data.current_state = s.data.current_state
    ∧ (resumed_body s).data.error_count = s.data.error_count
    ∧ (resumed_body s).data.override_state = s.data.override_state := by
  unfold resumed_body
  split <;> exact ⟨rfl, rfl, rfl⟩

lemma stopped_body_proj (s : SM) :
    (stopped_body s).data.current_state = s.data.current_state
    ∧ (stopped_body s).data.error_count = s.data.error_count
    ∧ (stopped_body s).data.override_state = s.data.override_state := by
  unfold stopped_body
  split <;> exact ⟨rfl, rfl, rfl⟩

lemma instruction_confirmed_body_proj (s : SM) :
    (instruction_confirmed_body s).data.current_state = s.data.current_state
    ∧ (instruction_confirmed_body s).data.error_count = s.data.error_count
    ∧ ((instruction_confirmed_body s).data.override_state = s.data.override_state
        ∨ (instruction_confirmed_body s).data.override_state = none) := by
  unfold instruction_confirmed_body instruction_confirmed_override
    instruction_confirmed_m0 instruction_confirmed_base
  split
  · exact ⟨rfl, rfl, Or.inl rfl⟩
  · split <;> split <;> split <;> simp

lemma printer_checked_body_proj (s : SM) :
    (printer_checked_body s).data.current_state = s.data.current_state
    ∧ (printer_checked_body s).data.error_count = s.data.error_count
    ∧ (printer_checked_body s).data.override_state = s.data.override_state := by
  unfold printer_checked_body
  split <;> exact ⟨rfl, rfl, rfl⟩

lemma attention_latch_data (s : SM) : (attention_latch s).data = s.data := by
  unfold attention_latch
  cases s.fan_error_name <;> rfl

lemma attention_body_proj (s : SM) :
    (attention_body s).data.current_state = s.data.current_state
    ∧ (attention_body s).data.error_count = s.data.error_count
    ∧ ((attention_body s).data.override_state = s.data.override_state
        ∨ (attention_body s).data.override_state = some State.ATTENTION) := by
  unfold attention_body attention_set
  have hd := attention_latch_data s
  split <;> simp [hd]

lemma error_body_proj (s : SM) :
    (error_body s).data.current_state = s.data.current_state
    ∧ (error_body s).data.error_count = s.data.error_count
    ∧ (error_body s).data.override_state = some State.ERROR :=
  ⟨rfl, rfl, rfl⟩

lemma error_resolved_body_proj (s : SM) :
    (error_resolved_body s).data.current_state = s.data.current_state
    ∧ (error_resolved_body s).data.error_count = s.data.error_count
    ∧ ((error_resolved_body s).data.override_state = s.data.override_state
        ∨ (error_resolved_body s).data.override_state = none) := by
  unfold error_resolved_body
  split
  · exact ⟨rfl, rfl, Or.inr rfl⟩
  · exact ⟨rfl, rfl, Or.inl rfl⟩

lemma serial_error_body_proj (s : SM) :
    (serial_error_body s).data.current_state = s.data.current_state
    ∧ (serial_error_body s).data.error_count = s.data.error_count
    ∧ (serial_error_body s).data.override_state = some State.ERROR :=
  ⟨rfl, rfl, rfl⟩

lemma serial_error_resolved_body_proj (s : SM) :
    (serial_error_resolved_body s).data.current_state = s.data.current_state
    ∧ (serial_error_resolved_body s).data.error_count = s.data.error_count
    ∧ ((serial_error_resolved_body s).data.override_state = s.data.override_state
        ∨ (serial_error_resolved_body s).data.override_state = none) := by
  unfold serial_error_resolved_body
  split
  · exact ⟨rfl, rfl, Or.inr rfl⟩
  · exact ⟨rfl, rfl, Or.inl rfl⟩

/-- C1: for every configuration of the three state layers, get_state
returns the override layer when set, else the printing layer when set,
else the base layer, and every state-changing operation re-establishes
that the reported current_state equals this fusion of the three layers,
so the reported state is a pure function of the layers at any moment. -/
theorem get_state_layer_precedence_preserved :
    (∀ d : SMData,
      get_state d = (d.override_state.or d.printing_state).getD d.base_state)
    ∧ (∀ m0, reported_inv (initSM m0))
    ∧ (∀ (op : SMOp) (sm : SM), reported_inv sm → reported_inv (applyOp op sm).1) := by
  refine ⟨?_, ?_, ?_⟩
  · intro d
    cases ho : d.override_state <;> cases hp : d.printing_state <;>
      simp [get_state, ho, hp, Option.or]
  · intro m0
    rfl
  · intro op sm h
    cases op with
    | busy => exact influenced_current _ _ (fun s => (busy_body_proj s).1) sm
    | printing => exact influenced_current _ _ (fun s => (printing_body_proj s).1) sm
    | paused => exact influenced_current _ _ (fun s => (paused_body_proj s).1) sm
    | resumed => exact influenced_current _ _ (fun s => (resumed_body_proj s).1) sm
    | stopped => exact influenced_current _ _ (fun s => (stopped_body_proj s).1) sm
    | finished => exact influenced_current _ _ (fun s => (finished_body_proj s).1) sm
    | not_printing =>
      exact influenced_current _ _ (fun s => (not_printing_body_proj s).1) sm
    | stopped_or_not_printing =>
      show reported_inv (stopped_or_not_printing sm).1
      unfold stopped_or_not_printing
      split
      · exact influenced_current _ _ (fun s => (stopped_body_proj s).1) sm
      · exact influenced_current _ _ (fun s => (not_printing_body_proj s).1) sm
    | attention => exact influenced_current _ _ (fun s => (attention_body_proj s).1) sm
    | error => exact influenced_current _ _ (fun s => (error_body_proj s).1) sm
    | error_resolved =>
      exact influenced_current _ _ (fun s => (error_resolved_body_proj s).1) sm
    | serial_error =>
      exact influenced_current _ _ (fun s => (serial_error_body_proj s).1) sm
    | serial_error_resolved =>
      exact influenced_current _ _ (fun s => (serial_error_resolved_body_proj s).1) sm
    | instruction_confirmed =>
      exact influenced_current _ _ (fun s => (instruction_confirmed_body_proj s).1) sm
    | printer_checked =>
      exact influenced_current _ _ (fun s => (printer_checked_body_proj s).1) sm
    | link_error_detected =>
      exact influenced_current _ _ (fun s => (error_body_proj s).1) _
    | link_error_resolved =>
      show reported_inv (link_error_resolved sm).1
      unfold link_error_resolved link_error_resolved_check
      split
      · exact influenced_current _ _ (fun s => (error_resolved_body_proj s).1) _
      · exact h
    | fan_error name => exact h
    | expect c => exact h
    | stop_expecting => exact h

/-- C1 witness: the invariant holds initially and is re-established by a
concrete operation. -/
theorem get_state_layer_precedence_preserved_witness :
    reported_inv (initSM false)
    ∧ reported_inv (applyOp SMOp.printing (initSM false)).1 :=
  ⟨rfl,
    get_state_layer_precedence_preserved.2.2 SMOp.printing (initSM false) rfl⟩

/-- C2: a state-layer mutation that leaves the reported state unchanged
emits no state_changed signal; one that changes it emits exactly one
state_changed whose from_state is the previous reported state and whose
to_state is the new one; hence every emitted state_changed has
from_state different from to_state. -/
theorem state_changed_once_per_edge (op : SMOp) (sm : SM) (h : reported_inv sm) :
    changedPairs (applyOp op sm).2 =
      (if (applyOp op sm).1.data.current_state = sm.data.current_state then []
       else [(sm.data.current_state, (applyOp op sm).1.data.current_state)])
    ∧ ∀ p ∈ changedPairs (applyOp op sm).2, p.1 ≠ p.2 := by
  have hmain : changedPairs (applyOp op sm).2 =
      (if (applyOp op sm).1.data.current_state = sm.data.current_state then []
       else [(sm.data.current_state, (applyOp op sm).1.data.current_state)]) := by
    cases op with
    | busy => exact influenced_pairs _ _ (fun s => (busy_body_proj s).1) sm
    | printing => exact influenced_pairs _ _ (fun s => (printing_body_proj s).1) sm
    | paused => exact influenced_pairs _ _ (fun s => (paused_body_proj s).1) sm
    | resumed => exact influenced_pairs _ _ (fun s => (resumed_body_proj s).1) sm
    | stopped => exact influenced_pairs _ _ (fun s => (stopped_body_proj s).1) sm
    | finished => exact influenced_pairs _ _ (fun s => (finished_body_proj s).1) sm
    | not_printing =>
      exact influenced_pairs _ _ (fun s => (not_printing_body_proj s).1) sm
    | stopped_or_not_printing =>
      show changedPairs (stopped_or_not_printing sm).2 =
        (if (stopped_or_not_printing sm).1.data.current_state = sm.data.current_state
         then []
         else [(sm.data.current_state,
                (stopped_or_not_printing sm).1.data.current_state)])
      unfold stopped_or_not_printing
      split
      · exact influenced_pairs _ _ (fun s => (stopped_body_proj s).1) sm
      · exact influenced_pairs _ _ (fun s => (not_printing_body_proj s).1) sm
    | attention => exact influenced_pairs _ _ (fun s => (attention_body_proj s).1) sm
    | error => exact influenced_pairs _ _ (fun s => (error_body_proj s).1) sm
    | error_resolved =>
      exact influenced_pairs _ _ (fun s => (error_resolved_body_proj s).1) sm
    | serial_error =>
      exact influenced_pairs _ _ (fun s => (serial_error_body_proj s).1) sm
    | serial_error_resolved =>
      exact influenced_pairs _ _ (fun s => (serial_error_resolved_body_proj s).1) sm
    | instruction_confirmed =>
      exact influenced_pairs _ _ (fun s => (instruction_confirmed_body_proj s).1) sm
    | printer_checked =>
      exact influenced_pairs _ _ (fun s => (printer_checked_body_proj s).1) sm
    | link_error_detected =>
      exact influenced_pairs _ _ (fun s => (error_body_proj s).1) _
    | link_error_resolved =>
      show changedPairs (link_error_resolved sm).2 =
        (if (link_error_resolved sm).1.data.current_state = sm.data.current_state
         then []
         else [(sm.data.current_state,
                (link_error_resolved sm).1.data.current_state)])
      unfold link_error_resolved link_error_resolved_check
      split
      · exact influenced_pairs _ _ (fun s => (error_resolved_body_proj s).1) _
      · simp [changedPairs]
    | fan_error name => simp [applyOp, changedPairs]
    | expect c => simp [applyOp, changedPairs]
    | stop_expecting => simp [applyOp, changedPairs]
  refine ⟨hmain, ?_⟩
  intro p hp
  rw [hmain] at hp
  split at hp
  · simp at hp
  · next hne =>
    rw [List.mem_singleton] at hp
    subst hp
    exact fun he => hne he.symm

/-- C2 witness: a state-changing mutation on the initial state emits
exactly the one expected edge. -/
theorem state_changed_once_per_edge_witness :
    reported_inv (initSM false)
    ∧ changedPairs (applyOp SMOp.printing (initSM false)).2 =
        (if (applyOp SMOp.printing (initSM false)).1.data.current_state
            = (initSM false).data.current_state then []
         else [((initSM false).data.current_state,
                (applyOp SMOp.printing (initSM false)).1.data.current_state)]) :=
  ⟨rfl, (state_changed_once_per_edge SMOp.printing (initSM false) rfl).1⟩

/-- C3: the source attributed to a consumed expected StateChange follows the
preference from_states match > to_states match > default_source; when both
the from entry (for the previous state) and the to entry (for the new
state) provide sources, the from one wins (also when they agree); only when
neither provides a source is default_source used. -/
theorem expected_source_preference (sm : SM) (sc : StateChange)
    (h : sm.expected_state_change = some sc) :
    get_expected_source sm =
      (match (sc.from_states.lookup sm.data.last_state).join,
             (sc.to_states.lookup sm.data.current_state).join with
       | some a, some _ => some a
       | some a, none => some a
       | none, some b => some b
       | none, none => sc.default_source) := by
  have hp : ∀ (sf st d : Option Source),
      pick_expected_source sf st d =
        (match sf, st with
         | some a, some _ => some a
         | some a, none => some a
         | none, some b => some b
         | none, none => d) := by
    intro sf st d
    rcases sf with _ | a <;> rcases st with _ | b
    · rfl
    · rfl
    · rfl
    · unfold pick_expected_source
      split_ifs <;> rfl
  unfold get_expected_source
  rw [h]
  exact hp _ _ _

/-- Concrete expectation with a from/to source conflict. -/
def scConflict : StateChange :=
  StateChange.make none [(State.READY, some Source.MARLIN)] [(State.ERROR, some Source.USER)] (some Source.CONNECT) none false

/-- Concrete manager state that just moved from ERROR to READY with the
conflicting expectation pending. -/
def smConflict : SM :=
  { initSM false with
      expected_state_change := some scConflict
      data := { (initSM false).data with
                  last_state := State.ERROR
                  current_state := State.READY } }

/-- C3 witness: on a concrete conflicting expectation the from_states
source wins. -/
theorem expected_source_preference_witness :
    smConflict.expected_state_change = some scConflict
    ∧ get_expected_source smConflict = some Source.USER :=
  ⟨rfl, (expected_source_preference smConflict scConflict rfl).trans (by decide)⟩

lemma expectPre_proj (c : Option StateChange) (sm : SM) :
    (expectPre c sm).2.data = sm.data
    ∧ (expectPre c sm).2.fan_error_name = sm.fan_error_name
    ∧ (expectPre c sm).2.unsure_whether_printing = sm.unsure_whether_printing
    ∧ (expectPre c sm).2.m0_after_prints = sm.m0_after_prints := by
  unfold expectPre
  split <;> exact ⟨rfl, rfl, rfl, rfl⟩

lemma attention_body_latched (sm : SM) (name : String) (s : SM)
    (hd : s.data = sm.data)
    (hf : s.fan_error_name = some name)
    (hu : s.unsure_whether_printing = sm.unsure_whether_printing)
    (hm : s.m0_after_prints = sm.m0_after_prints)
    (hps : ¬(sm.data.printing_state = some State.FINISHED
             ∨ sm.data.printing_state = some State.STOPPED)) :
    attention_body s =
      { sm with
          data := { sm.data with override_state := some State.ATTENTION }
          expected_state_change := some (StateChange.make none [(State.ATTENTION, some Source.FIRMWARE)] [] none (some (name ++ " fan error")) false)
          fan_error_name := none } := by
  unfold attention_body attention_latch attention_set
  rw [hf]
  simp [hd, hps, hu, hm]

lemma smhc_attention_latched (sm : SM) (name : String)
    (hcur : sm.data.current_state ≠ State.ATTENTION) :
    state_may_have_changed
      { sm with
          data := { sm.data with override_state := some State.ATTENTION }
          expected_state_change := some (StateChange.make none [(State.ATTENTION, some Source.FIRMWARE)] [] none (some (name ++ " fan error")) false)
          fan_error_name := none } =
      ({ sm with
          data := { sm.data with
                      override_state := some State.ATTENTION
                      last_state := sm.data.current_state
                      current_state := State.ATTENTION
                      state_history := histAppend sm.data.state_history State.ATTENTION }
          expected_state_change := none
          fan_error_name := none },
       [Emit.preStateChange none,
        Emit.stateChanged ⟨sm.data.current_state, State.ATTENTION, none,
          some Source.FIRMWARE, some (name ++ " fan error"), false⟩,
        Emit.postStateChange]) := by
  unfold state_may_have_changed
  simp [get_state, is_expected, get_expected_source, pick_expected_source,
    StateChange.make, List.lookup, hcur, Ne.symm hcur]

lemma smhc_reason (s : SM) (c : StateChange) (hc : s.expected_state_change = some c) :
    ∀ a, Emit.stateChanged a ∈ (state_may_have_changed s).2 →
      a.reason = c.reason ∨ a.reason = none := by
  unfold state_may_have_changed
  split
  · intro a ha
    simp [hc] at ha
    rcases ha with rfl
    dsimp only
    split <;> simp
  · intro a ha
    simp at ha

lemma attention_set_expected (s : SM) :
    (attention_set s).expected_state_change = s.expected_state_change := by
  unfold attention_set
  split <;> rfl

lemma attention_body_fan (s : SM) (name : String) (hf : s.fan_error_name = some name) :
    (attention_body s).fan_error_name = none := by
  unfold attention_body attention_latch attention_set
  rw [hf]
  split <;> rfl

/-- C8 counterexample: in the concrete run below a fan-error line for fan
"Extruder" is observed, yet the next (and only) ATTENTION transition
reports reason None instead of "Extruder fan error": the attention() call
that runs while the print is FINISHED consumes and clears the latch
without any state transition, so the claim that the next ATTENTION
transition carries the fan reason fails on this input. -/
theorem fan_latch_counterexample :
    (runOps [SMOp.printing, SMOp.finished, SMOp.fan_error "Extruder",
             SMOp.attention, SMOp.printer_checked, SMOp.attention]
       (initSM false)).2.filterMap
        (fun e =>
          match e with
          | Emit.stateChanged a =>
            if a.to_state = State.ATTENTION then some a.reason else none
          | _ => none) = [none]
    ∧ (none : Option String) ≠ some ("Extruder" ++ " fan error") :=
  ⟨by decide, by decide⟩

/-- C8 (amended): a fan-error line only latches the fan name, with no
signal and no state change; the next attention() invocation consumes and
clears the latch (even when it causes no transition); when that invocation
does change the reported state to ATTENTION it emits the single
state_changed carrying reason "(fan name) fan error" with source FIRMWARE;
and an attention() with no latch pending reports no reason at all. -/
theorem fan_error_latch_amended (sm : SM) (name : String) :
    (applyOp (SMOp.fan_error name) sm = ({ sm with fan_error_name := some name }, []))
    ∧ (sm.fan_error_name = some name →
        (applyOp SMOp.attention sm).1.fan_error_name = none)
    ∧ (sm.fan_error_name = some name →
        ¬(sm.data.printing_state = some State.FINISHED
          ∨ sm.data.printing_state = some State.STOPPED) →
        sm.data.current_state ≠ State.ATTENTION →
        (applyOp SMOp.attention sm).2 =
          [Emit.preStateChange none,
           Emit.stateChanged ⟨sm.data.current_state, State.ATTENTION, none,
             some Source.FIRMWARE, some (name ++ " fan error"), false⟩,
           Emit.postStateChange])
    ∧ (sm.fan_error_name = none → sm.expected_state_change = none →
        ∀ a, Emit.stateChanged a ∈ (applyOp SMOp.attention sm).2 → a.reason = none) := by
  refine ⟨rfl, ?_, ?_, ?_⟩
  · intro hl
    show (attention_op sm).1.fan_error_name = none
    unfold attention_op
    have hp := expectPre_proj (some (StateChange.make none [(State.ATTENTION, some Source.USER)] [] none none false)) sm
    have := influenced_proj (some (StateChange.make none [(State.ATTENTION, some Source.USER)] [] none none false)) attention_body sm
    rw [this.2.2.2.2.2.1]
    exact attention_body_fan _ name (hp.2.1.trans hl)
  · intro hl hps hcur
    show (attention_op sm).2 = _
    unfold attention_op influenced
    dsimp only
    have hp := expectPre_proj (some (StateChange.make none [(State.ATTENTION, some Source.USER)] [] none none false)) sm
    have hb := attention_body_latched sm name _ hp.1 (hp.2.1.trans hl)
      hp.2.2.1 hp.2.2.2 hps
    rw [hb, smhc_attention_latched sm name hcur]
  · intro hl hexp
    show ∀ a, Emit.stateChanged a ∈ (attention_op sm).2 → a.reason = none
    intro a ha
    unfold attention_op influenced at ha
    dsimp only at ha
    have hp := expectPre_proj (some (StateChange.make none [(State.ATTENTION, some Source.USER)] [] none none false)) sm
    have hfan2 : (expectPre (some (StateChange.make none [(State.ATTENTION, some Source.USER)] [] none none false)) sm).2.fan_error_name
        = none := hp.2.1.trans hl
    have hexp2 : (expectPre (some (StateChange.make none [(State.ATTENTION, some Source.USER)] [] none none false)) sm).2.expected_state_change
        = some (StateChange.make none [(State.ATTENTION, some Source.USER)] [] none none false) := by
      unfold expectPre
      simp [hexp]
    have hlatch : attention_latch (expectPre (some (StateChange.make none [(State.ATTENTION, some Source.USER)] [] none none false)) sm).2
        = (expectPre (some (StateChange.make none [(State.ATTENTION, some Source.USER)] [] none none false)) sm).2 := by
      unfold attention_latch
      rw [hfan2]
    have hce : (attention_body (expectPre (some (StateChange.make none [(State.ATTENTION, some Source.USER)] [] none none false)) sm).2).expected_state_change
        = some (StateChange.make none [(State.ATTENTION, some Source.USER)] [] none none false) := by
      unfold attention_body
      rw [hlatch, attention_set_expected, hexp2]
    rcases smhc_reason _ _ hce a ha with h | h
    · exact h
    · exact h

/-- C8 witness: a concrete latched fan error produces the ATTENTION edge
with the fan reason and clears the latch. -/
theorem fan_error_latch_amended_witness :
    ({ initSM false with fan_error_name := some "Extruder" } : SM).fan_error_name
      = some "Extruder"
    ∧ (applyOp SMOp.attention
        { initSM false with fan_error_name := some "Extruder" }).2 =
        [Emit.preStateChange none,
         Emit.stateChanged ⟨State.BUSY, State.ATTENTION, none,
           some Source.FIRMWARE, some ("Extruder" ++ " fan error"), false⟩,
         Emit.postStateChange] :=
  ⟨rfl,
    (fan_error_latch_amended { initSM false with fan_error_name := some "Extruder" }
        "Extruder").2.2.1 rfl (by decide) (by decide)⟩

/-- Number of currently broken (not ok) printer error conditions. -/
def countBroken (conds : List Bool) : Nat := conds.count false

/-- Environment for the error-count invariant: the ok flags of the printer
error states from the errors module, plus the state manager wired to them
in StateManager.__init__. -/
structure ErrEnv where
  conds : List Bool
  sm : SM
deriving DecidableEq, Repr

/-- Operations that do not call into the error-counting callbacks
directly: within src the only calls of error(), serial_error(),
link_error_detected() and link_error_resolved() happen through the error
condition callbacks, so those four entry points are excluded from the
directly invokable set. -/
def allowedOp : SMOp → Bool
  | SMOp.error => false
  | SMOp.serial_error => false
  | SMOp.link_error_detected => false
  | SMOp.link_error_resolved => false
  | _ => true

/-- Modelled from the spec: the errors module (errors.py, not under src)
holds a set of error conditions whose detected/resolved callbacks the
StateManager registers in its constructor; per the spec the error count
increments on each detection and decrements on each resolution, so the
callbacks fire exactly on the ok-to-broken and broken-to-ok edges of a
condition. -/
inductive ErrEvent where
  | condBroke (i : Nat)
  | condResolved (i : Nat)
  | op (o : SMOp)
deriving DecidableEq, Repr

/-- One step of the error-condition environment: a breaking condition
fires link_error_detected, a resolving one fires link_error_resolved, and
any other allowed state-manager entry point runs unchanged. -/
def errStep : ErrEvent → ErrEnv → ErrEnv × List Emit
  | ErrEvent.condBroke i, e =>
    match e.conds.get? i with
    | some true =>
      let r := link_error_detected e.sm
      (⟨e.conds.set i false, r.1⟩, r.2)
    | _ => (e, [])
  | ErrEvent.condResolved i, e =>
    match e.conds.get? i with
    | some false =>
      let r := link_error_resolved e.sm
      (⟨e.conds.set i true, r.1⟩, r.2)
    | _ => (e, [])
  | ErrEvent.op o, e =>
    if allowedOp o then
      let r := applyOp o e.sm
      (⟨e.conds, r.1⟩, r.2)
    else (e, [])

/-- Initial environment: StateManager.__init__ increments error_count once
for every not-ok error state. -/
def errInit (conds : List Bool) (m0 : Bool) : ErrEnv :=
  ⟨conds,
    { initSM m0 with
        data := { (initSM m0).data with error_count := (countBroken conds : Int) } }⟩

/-- Error-count invariant: the counter equals the number of broken
conditions. -/
def errInv (e : ErrEnv) : Prop :=
  e.sm.data.error_count = (countBroken e.conds : Int)

lemma countBroken_set_false (l : List Bool) (i : Nat) (h : l.get? i = some true) :
    countBroken (l.set i false) = countBroken l + 1 := by
  induction l generalizing i with
  | nil => cases h
  | cons b t ih =>
    cases i with
    | zero =>
      injection h with hb
      subst hb
      simp [countBroken, List.count_cons]
    | succ n =>
      have := ih n h
      simp only [List.set, countBroken, List.count_cons] at *
      omega

lemma countBroken_set_true (l : List Bool) (i : Nat) (h : l.get? i = some false) :
    countBroken l = countBroken (l.set i true) + 1 := by
  induction l generalizing i with
  | nil => cases h
  | cons b t ih =>
    cases i with
    | zero =>
      injection h with hb
      subst hb
      simp [countBroken, List.count_cons]
    | succ n =>
      have := ih n h
      simp only [List.set, countBroken, List.count_cons] at *
      omega

lemma influenced_count_override (c : Option StateChange) (f : SM → SM)
    (hcnt : ∀ s, (f s).data.error_count = s.data.error_count)
    (hov : ∀ s, (f s).data.override_state = s.data.override_state
            ∨ (f s).data.override_state = none
            ∨ (f s).data.override_state = some State.ATTENTION) (sm : SM) :
    (influenced c f sm).1.data.error_count = sm.data.error_count
    ∧ ((influenced c f sm).1.data.override_state = some State.ERROR →
        sm.data.override_state = some State.ERROR) := by
  have hi := influenced_proj c f sm
  have hd := (expectPre_data c sm).1
  constructor
  · rw [hi.2.2.2.2.1, hcnt, hd]
  · intro h
    rw [hi.2.1] at h
    rcases hov (expectPre c sm).2 with h2 | h2 | h2
    · rw [h2, hd] at h
      exact h
    · rw [h2] at h
      cases h
    · rw [h2] at h
      simp at h

lemma link_error_detected_proj (sm : SM) :
    (link_error_detected sm).1.data.error_count = sm.data.error_count + 1
    ∧ (link_error_detected sm).1.data.override_state = some State.ERROR := by
  unfold link_error_detected
  show (error_op _).1.data.error_count = _ ∧ (error_op _).1.data.override_state = _
  unfold error_op
  have hi := influenced_proj (some (StateChange.make none [(State.ERROR, some Source.WUI)] [] none none false)) error_body
    { sm with data := { sm.data with error_count := sm.data.error_count + 1 } }
  have hd := (expectPre_data (some (StateChange.make none [(State.ERROR, some Source.WUI)] [] none none false))
    { sm with data := { sm.data with error_count := sm.data.error_count + 1 } }).1
  constructor
  · rw [hi.2.2.2.2.1, (error_body_proj _).2.1, hd]
  · rw [hi.2.1, (error_body_proj _).2.2]

lemma link_error_resolved_proj (sm : SM) :
    (link_error_resolved sm).1.data.error_count = sm.data.error_count - 1
    ∧ ((link_error_resolved sm).1.data.override_state = some State.ERROR →
        sm.data.override_state = some State.ERROR) := by
  unfold link_error_resolved link_error_resolved_check
  split
  · show (error_resolved_op _).1.data.error_count = _ ∧ _
    unfold error_resolved_op
    have h := influenced_count_override (some (StateChange.make none [] [(State.ERROR, some Source.USER)] none none false)) error_resolved_body
      (fun s => (error_resolved_body_proj s).2.1)
      (fun s => ((error_resolved_body_proj s).2.2).imp id Or.inl)
      { sm with data := { sm.data with error_count := sm.data.error_count - 1 } }
    exact ⟨h.1, h.2⟩
  · exact ⟨rfl, fun h => h⟩

/-- Shape of the error-count and override facts used by the C7 proof. -/
def countOvOk (r : SM × List Emit) (sm : SM) : Prop :=
  r.1.data.error_count = sm.data.error_count
  ∧ (r.1.data.override_state = some State.ERROR →
      sm.data.override_state = some State.ERROR)

lemma applyOp_allowed (o : SMOp) (ho : allowedOp o = true) (sm : SM) :
    countOvOk (applyOp o sm) sm := by
  cases o with
  | busy =>
    show countOvOk (busy_op sm) sm
    exact influenced_count_override _ _
      (fun s => (busy_body_proj s).2.1) (fun s => Or.inl (busy_body_proj s).2.2) sm
  | printing =>
    show countOvOk (printing_op sm) sm
    exact influenced_count_override _ _
      (fun s => (printing_body_proj s).2.1) (fun s => Or.inl (printing_body_proj s).2.2) sm
  | paused =>
    show countOvOk (paused_op sm) sm
    exact influenced_count_override _ _
      (fun s => (paused_body_proj s).2.1) (fun s => Or.inl (paused_body_proj s).2.2) sm
  | resumed =>
    show countOvOk (resumed_op sm) sm
    exact influenced_count_override _ _
      (fun s => (resumed_body_proj s).2.1) (fun s => Or.inl (resumed_body_proj s).2.2) sm
  | stopped =>
    show countOvOk (stopped_op sm) sm
    exact influenced_count_override _ _
      (fun s => (stopped_body_proj s).2.1) (fun s => Or.inl (stopped_body_proj s).2.2) sm
  | finished =>
    show countOvOk (finished_op sm) sm
    exact influenced_count_override _ _
      (fun s => (finished_body_proj s).2.1) (fun s => Or.inl (finished_body_proj s).2.2) sm
  | not_printing =>
    show countOvOk (not_printing_op sm) sm
    exact influenced_count_override _ _
      (fun s => (not_printing_body_proj s).2.1)
      (fun s => Or.inl (not_printing_body_proj s).2.2) sm
  | stopped_or_not_printing =>
    show countOvOk (stopped_or_not_printing sm) sm
    unfold stopped_or_not_printing
    split
    · exact influenced_count_override _ _
        (fun s => (stopped_body_proj s).2.1) (fun s => Or.inl (stopped_body_proj s).2.2) sm
    · exact influenced_count_override _ _
        (fun s => (not_printing_body_proj s).2.1)
        (fun s => Or.inl (not_printing_body_proj s).2.2) sm
  | attention =>
    show countOvOk (attention_op sm) sm
    exact influenced_count_override _ _
      (fun s => (attention_body_proj s).2.1)
      (fun s => ((attention_body_proj s).2.2).imp id Or.inr) sm
  | error_resolved =>
    show countOvOk (error_resolved_op sm) sm
    exact influenced_count_override _ _
      (fun s => (error_resolved_body_proj s).2.1)
      (fun s => ((error_resolved_body_proj s).2.2).imp id Or.inl) sm
  | serial_error_resolved =>
    show countOvOk (serial_error_resolved_op sm) sm
    exact influenced_count_override _ _
      (fun s => (serial_error_resolved_body_proj s).2.1)
      (fun s => ((serial_error_resolved_body_proj s).2.2).imp id Or.inl) sm
  | instruction_confirmed =>
    show countOvOk (instruction_confirmed_op sm) sm
    exact influenced_count_override _ _
      (fun s => (instruction_confirmed_body_proj s).2.1)
      (fun s => ((instruction_confirmed_body_proj s).2.2).imp id Or.inl) sm
  | printer_checked =>
    show countOvOk (printer_checked_op sm) sm
    exact influenced_count_override _ _
      (fun s => (printer_checked_body_proj s).2.1)
      (fun s => Or.inl (printer_checked_body_proj s).2.2) sm
  | fan_error name => exact ⟨rfl, fun h => h⟩
  | expect c => exact ⟨rfl, fun h => h⟩
  | stop_expecting => exact ⟨rfl, fun h => h⟩
  | error => cases ho
  | serial_error => cases ho
  | link_error_detected => cases ho
  | link_error_resolved => cases ho

/-- C7: the error counter equals the number of broken error conditions,
hence is always nonnegative, from the initial state on; and whenever a step
makes the override layer enter ERROR, the counter is at least 1 at that
moment. -/
theorem error_count_nonneg_and_error_entry (e : ErrEnv) (ev : ErrEvent)
    (h : errInv e) :
    (∀ conds m0, errInv (errInit conds m0))
    ∧ errInv (errStep ev e).1
    ∧ 0 ≤ (errStep ev e).1.sm.data.error_count
    ∧ (e.sm.data.override_state ≠ some State.ERROR →
        (errStep ev e).1.sm.data.override_state = some State.ERROR →
        1 ≤ (errStep ev e).1.sm.data.error_count) := by
  refine ⟨fun conds m0 => rfl, ?_⟩
  have hmain : errInv (errStep ev e).1
      ∧ (e.sm.data.override_state ≠ some State.ERROR →
          (errStep ev e).1.sm.data.override_state = some State.ERROR →
          1 ≤ (errStep ev e).1.sm.data.error_count) := by
    cases ev with
    | condBroke i =>
      rcases hg : e.conds.get? i with _ | b
      · simp only [errStep, hg]
        exact ⟨h, fun hne hov => absurd hov hne⟩
      · cases b
        · simp only [errStep, hg]
          exact ⟨h, fun hne hov => absurd hov hne⟩
        · simp only [errStep, hg]
          have hp := link_error_detected_proj e.sm
          have hcnt := countBroken_set_false e.conds i hg
          constructor
          · show (link_error_detected e.sm).1.data.error_count
              = (countBroken (e.conds.set i false) : Int)
            rw [hp.1, h, hcnt]
            push_cast
            ring
          · intro hne hov
            show 1 ≤ (link_error_detected e.sm).1.data.error_count
            rw [hp.1, h]
            omega
    | condResolved i =>
      rcases hg : e.conds.get? i with _ | b
      · simp only [errStep, hg]
        exact ⟨h, fun hne hov => absurd hov hne⟩
      · cases b
        · simp only [errStep, hg]
          have hp := link_error_resolved_proj e.sm
          have hcnt := countBroken_set_true e.conds i hg
          constructor
          · show (link_error_resolved e.sm).1.data.error_count
              = (countBroken (e.conds.set i true) : Int)
            rw [hp.1, h, hcnt]
            push_cast
            ring
          · intro hne hov
            exact absurd (hp.2 hov) hne
        · simp only [errStep, hg]
          exact ⟨h, fun hne hov => absurd hov hne⟩
    | op o =>
      by_cases ha : allowedOp o = true
      · simp only [errStep, ha, if_true]
        have hp := applyOp_allowed o ha e.sm
        constructor
        · show (applyOp o e.sm).1.data.error_count = _
          rw [hp.1]
          exact h
        · intro hne hov
          exact absurd (hp.2 hov) hne
      · simp only [errStep, ha, if_false]
        exact ⟨h, fun hne hov => absurd hov hne⟩
  refine ⟨hmain.1, ?_, hmain.2⟩
  rw [hmain.1]
  exact Int.natCast_nonneg _

/-- C7 witness: one broken condition takes the initial environment into
ERROR with counter 1. -/
theorem error_count_nonneg_and_error_entry_witness :
    errInv (errInit [true] false)
    ∧ errInv (errStep (ErrEvent.condBroke 0) (errInit [true] false)).1
    ∧ ((errInit [true] false).sm.data.override_state ≠ some State.ERROR)
    ∧ 1 ≤ (errStep (ErrEvent.condBroke 0) (errInit [true] false)).1.sm.data.error_count :=
  ⟨rfl,
   (error_count_nonneg_and_error_entry (errInit [true] false)
      (ErrEvent.condBroke 0) rfl).2.1,
   by decide,
   (error_count_nonneg_and_error_entry (errInit [true] false)
      (ErrEvent.condBroke 0) rfl).2.2.2 (by decide) (by decide)⟩

/-- Named groups of ERROR_REGEX as read by
StateManager.error_handler/get_reason. -/
structure ErrGroups where
  stop : Option String
  kill : Option String
  temp : Option String
  mintemp : Option String
  maxtemp : Option String
  bed : Option String
  runaway : Option String
  hotend_runaway : Option String
  heatbed_runaway : Option String
  preheat_hotend : Option String
  preheat_heatbed : Option String
  bed_levelling : Option String
deriving DecidableEq, Repr

/-- Error groups with every group absent. -/
def ErrGroups.empty : ErrGroups :=
  ⟨none, none, none, none, none, none, none, none, none, none, none, none⟩

/-- StateManager.get_reason: assemble a reason string from the parsed error
groups, appending "Manual restart required!". -/
def get_reason (g : ErrGroups) : String :=
  let reason :=
    if g.temp.isSome then
      ((if g.mintemp.isSome then "Mintemp"
        else if g.maxtemp.isSome then "Maxtemp" else "")
        ++ " triggered by the "
        ++ (if g.bed.isSome then "heatbed thermistor." else "hotend thermistor."))
    else if g.runaway.isSome then
      ((if g.hotend_runaway.isSome then "Hotend"
        else if g.heatbed_runaway.isSome then "Heatbed"
        else if g.preheat_hotend.isSome then "Hotend preheat"
        else if g.preheat_heatbed.isSome then "Heatbed preheat" else "")
        ++ " thermal runaway.")
    else if g.bed_levelling.getD "" ≠ "" then
      "Bed leveling failed. Sensor didn\x27t trigger. Is there debris on the nozzle?"
    else ""
  reason ++ " Manual restart required!"

/-- Expected change installed by the error paths: ERROR attributed to
MARLIN with the given reason. -/
def mkErrorExpect (reason : String) : StateChange :=
  StateChange.make none [(State.ERROR, some Source.MARLIN)] [] none (some reason) false

/-- Context of the error-reason protocol: the state manager, the deadline
of the currently pending (not yet cancelled) error_reason_waiter thread,
and the HW error-state flag set to False by the error paths. -/
structure ErrCtx where
  sm : SM
  pending_deadline : Option Nat
  hw_ok : Bool
deriving DecidableEq, Repr

/-- Setting and clearing error_reason_event: any error_reason_waiter
currently blocked on the event wakes up without installing anything, so
the pending deadline is discarded. -/
def cancelWaiter (c : ErrCtx) : ErrCtx := { c with pending_deadline := none }

/-- StateManager.error_handler: cancel the previous reason waiter; a
generic stop/kill line while not already in override ERROR starts a fresh
waiter for ERROR_REASON_TIMEOUT seconds and flags
awaiting_error_reason, while a specific error expects the ERROR change
with the parsed reason and breaks the HW error state. -/
def error_handler (now : Nat) (g : ErrGroups) (c0 : ErrCtx) : ErrCtx :=
  let c := cancelWaiter c0
  if (g.stop.isSome ∨ g.kill.isSome)
      ∧ c.sm.data.override_state ≠ some State.ERROR then
    { c with
        sm := { c.sm with
                  data := { c.sm.data with awaiting_error_reason := true } }
        pending_deadline := some (now + ERROR_REASON_TIMEOUT) }
  else
    { c with
        sm := { c.sm with
                  expected_state_change := some (mkErrorExpect (get_reason g)) }
        hw_ok := false }

/-- StateManager.error_reason_waiter at its deadline: if it was not
cancelled in the meantime it expects the ERROR change with reason
"404 Reason not found" and breaks the HW error state; it clears the
awaiting flag either way (a cancelled waiter does nothing else). -/
def error_reason_waiter (c : ErrCtx) : ErrCtx :=
  match c.pending_deadline with
  | some _ =>
    { c with
        sm := { c.sm with
                  expected_state_change := some (mkErrorExpect "404 Reason not found")
                  data := { c.sm.data with awaiting_error_reason := false } }
        pending_deadline := none
        hw_ok := false }
  | none => c

/-- C4: a generic stop/kill line while not already in override ERROR arms
the reason waiter for ERROR_REASON_TIMEOUT = 2 seconds; a specific error
arriving in the window cancels the waiter and attaches its parsed reason
to the expected ERROR change; an uncancelled waiter expires into an
expected ERROR with reason "404 Reason not found"; and a second generic
kill cancels the previous wait and restarts it from its own arrival
time. -/
theorem error_reason_waiter_protocol (c : ErrCtx) (now now2 : Nat)
    (g gs g2 : ErrGroups)
    (hg : g.stop.isSome ∨ g.kill.isSome)
    (hov : c.sm.data.override_state ≠ some State.ERROR)
    (hs : gs.stop = none ∧ gs.kill = none)
    (hg2 : g2.stop.isSome ∨ g2.kill.isSome) :
    (error_handler now g c).pending_deadline = some (now + ERROR_REASON_TIMEOUT)
    ∧ ERROR_REASON_TIMEOUT = 2
    ∧ (error_handler now g c).sm.data.awaiting_error_reason = true
    ∧ (error_handler now2 gs (error_handler now g c)).pending_deadline = none
    ∧ (error_handler now2 gs (error_handler now g c)).sm.expected_state_change
        = some (mkErrorExpect (get_reason gs))
    ∧ (error_reason_waiter (error_handler now g c)).sm.expected_state_change
        = some (mkErrorExpect "404 Reason not found")
    ∧ (error_handler now2 g2 (error_handler now g c)).pending_deadline
        = some (now2 + ERROR_REASON_TIMEOUT)
    ∧ (error_reason_waiter
          (error_handler now2 g2 (error_handler now g c))).sm.expected_state_change
        = some (mkErrorExpect "404 Reason not found") := by
  have hc1 : error_handler now g c =
      { sm := { c.sm with
                  data := { c.sm.data with awaiting_error_reason := true } }
        pending_deadline := some (now + ERROR_REASON_TIMEOUT)
        hw_ok := c.hw_ok } := by
    unfold error_handler cancelWaiter
    rw [if_pos ⟨hg, hov⟩]
  have hc2 : error_handler now2 gs (error_handler now g c) =
      { sm := { c.sm with
                  data := { c.sm.data with awaiting_error_reason := true }
                  expected_state_change := some (mkErrorExpect (get_reason gs)) }
        pending_deadline := none
        hw_ok := false } := by
    rw [hc1]
    unfold error_handler cancelWaiter
    rw [if_neg]
    intro hcontra
    rcases hcontra.1 with hx | hx
    · rw [hs.1] at hx
      cases hx
    · rw [hs.2] at hx
      cases hx
  have hc3 : error_handler now2 g2 (error_handler now g c) =
      { sm := { c.sm with
                  data := { c.sm.data with awaiting_error_reason := true } }
        pending_deadline := some (now2 + ERROR_REASON_TIMEOUT)
        hw_ok := c.hw_ok } := by
    rw [hc1]
    unfold error_handler cancelWaiter
    rw [if_pos ⟨hg2, hov⟩]
  refine ⟨by rw [hc1], rfl, by rw [hc1], by rw [hc2], by rw [hc2], ?_, by rw [hc3], ?_⟩
  · rw [hc1]
    rfl
  · rw [hc3]
    rfl

/-- Concrete generic kill groups. -/
def gKillEx : ErrGroups := { ErrGroups.empty with kill := some "kill" }

/-- Concrete specific mintemp error groups. -/
def gMintempEx : ErrGroups :=
  { ErrGroups.empty with temp := some "MINTEMP", mintemp := some "MIN" }

/-- Concrete waiter context over the initial state manager. -/
def ctxEx : ErrCtx := ⟨initSM false, none, true⟩

/-- C4 witness: a concrete kill line arms the 2 second waiter; a mintemp
error in-window attaches its parsed reason; the expired waiter reports
"404 Reason not found". -/
theorem error_reason_waiter_protocol_witness :
    (gKillEx.stop.isSome ∨ gKillEx.kill.isSome)
    ∧ (error_handler 0 gKillEx ctxEx).pending_deadline = some 2
    ∧ (error_handler 1 gMintempEx (error_handler 0 gKillEx ctxEx)).sm.expected_state_change
        = some (mkErrorExpect
            "Mintemp triggered by the hotend thermistor. Manual restart required!")
    ∧ (error_reason_waiter (error_handler 0 gKillEx ctxEx)).sm.expected_state_change
        = some (mkErrorExpect "404 Reason not found") := by
  have t := error_reason_waiter_protocol ctxEx 0 1 gKillEx gMintempEx gKillEx
    (Or.inr (by decide)) (by decide) ⟨rfl, rfl⟩ (Or.inr (by decide))
  exact ⟨Or.inr (by decide), t.1, t.2.2.2.2.1.trans (by decide), t.2.2.2.2.2.1⟩

/-- Observable actions of ResetPrinter._run_command, in program order. -/
inductive ResetEff where
  | addBootHandler
  | expectDefault
  | gpioReset (pin : Nat)
  | dtrBlip
  | removeBootHandler
deriving DecidableEq, Repr

/-- ResetPrinter._run_command: refuse pin 23 outright; otherwise register
the boot-banner handler, expect a default-attributed change, reset via
GPIO when wiringpi is importable or via a DTR blip, wait for the banner
and fail on timeout. -/
def resetPrinterRun (reset_pin : Nat) (has_wiringpi : Bool) (boot_seen : Bool) :
    List ResetEff × Except String Unit :=
  if reset_pin = 23 then
    ([], Except.error ("Pin BCM_23 is by default connected straight to "
      ++ "ground. This would destroy your pin."))
  else
    let effs := [ResetEff.addBootHandler, ResetEff.expectDefault]
      ++ (if has_wiringpi then [ResetEff.gpioReset reset_pin] else [ResetEff.dtrBlip])
      ++ [ResetEff.removeBootHandler]
    if boot_seen then (effs, Except.ok ())
    else
      (effs, Except.error ("Your printer has ignored the reset signal, your RPi "
        ++ "is broken or you have configured a wrong pin,"
        ++ "or our serial reading component broke.."))

/-- C9: with the reset pin configured as BCM 23 the command fails
immediately: no boot-banner handler is registered, no GPIO or DTR action
is performed and nothing is written to serial, whatever the GPIO
capability or the printer would have answered. -/
theorem reset_printer_pin23_refused (has_wiringpi boot_seen : Bool) :
    (resetPrinterRun 23 has_wiringpi boot_seen).1 = []
    ∧ ∃ msg, (resetPrinterRun 23 has_wiringpi boot_seen).2 = Except.error msg :=
  ⟨rfl, ⟨_, rfl⟩⟩

/-- Observable actions of StartPrint._run_command, in program order. -/
inductive SPEffect where
  | expectPrinting
  | sendGcode (g : String)
  | startFilePrint (path : String)
  | setFilePath
  | printingCall
  | stopExpecting
deriving DecidableEq, Repr

/-- Environment read by StartPrint: the state layers, the SD long-to-short
translation table, whether the local file exists, and whether the M23
response matched with its ok group present. -/
structure SPEnv where
  printing_state : Option State
  override_state : Option State
  current_state : State
  lfn_to_sfn_paths : List (String × String)
  fs_has_file : Bool
  open_ok : Bool
deriving DecidableEq, Repr

/-- Modelled from the spec: file_is_on_sd lives in util.py, which is not
under src; per the spec an SD path is one whose first segment (after the
root of Path.parts) equals the SD mount name. -/
def file_is_on_sd (parts : List String) : Bool :=
  parts.get? 1 == some SD_MOUNT_NAME

/-- Cutting the first "/" and "SD Card" off the path parts, as
str(Path("/", *parts[2:])). -/
def sdPathOf (parts : List String) : String :=
  "/" ++ String.intercalate "/" (parts.drop 2)

/-- Name of a state, as used in failure messages. -/
def stateName : State → String
  | State.READY => "READY"
  | State.BUSY => "BUSY"
  | State.PRINTING => "PRINTING"
  | State.PAUSED => "PAUSED"
  | State.FINISHED => "FINISHED"
  | State.STOPPED => "STOPPED"
  | State.ERROR => "ERROR"
  | State.ATTENTION => "ATTENTION"
  | State.IDLE => "IDLE"

/-- StartPrint._load_file: lower-case the SD path (the firmware wants
lower case), send M23 and fail unless the open result matched with its ok
group. -/
def load_file (raw_sd_path : String) (open_ok : Bool) :
    List SPEffect × Except String Unit :=
  let sd_path := raw_sd_path.toLower
  ([SPEffect.sendGcode ("M23 " ++ sd_path)],
   if open_ok then Except.ok ()
   else Except.error ("Wrong file name, or bad file. File name: " ++ sd_path))

/-- StartPrint._run_command: refuse while a printing layer or an override
is set; otherwise expect a PRINTING change; for SD paths translate the
long path through the table (falling back to the path itself), load the
file and send M24; for local paths check existence and hand off to the
file printer; finally record the file path, flip the state to PRINTING
and stop expecting. -/
def startPrintRun (env : SPEnv) (path_string : String) (parts : List String) :
    List SPEffect × Except String Unit :=
  if env.printing_state ≠ none then
    ([], Except.error "Already printing")
  else if env.override_state ≠ none then
    ([], Except.error ("Cannot print in " ++ stateName env.current_state ++ " state."))
  else
    let effs0 := [SPEffect.expectPrinting]
    if file_is_on_sd parts then
      let sd_path := sdPathOf parts
      let short_path :=
        match env.lfn_to_sfn_paths.lookup sd_path with
        | some p => p
        | none => sd_path
      let lf := load_file short_path env.open_ok
      match lf.2 with
      | Except.error msg => (effs0 ++ lf.1, Except.error msg)
      | Except.ok _ =>
        (effs0 ++ lf.1 ++ [SPEffect.sendGcode "M24", SPEffect.setFilePath,
          SPEffect.printingCall, SPEffect.stopExpecting], Except.ok ())
    else
      if ¬env.fs_has_file then
        (effs0, Except.error ("The file at " ++ path_string ++ " does not exist."))
      else
        (effs0 ++ [SPEffect.startFilePrint path_string, SPEffect.setFilePath,
          SPEffect.printingCall, SPEffect.stopExpecting], Except.ok ())

/-- C5: StartPrint refuses with no effect at all (in particular no state
layer change) whenever the printing layer or an override is set; on an SD
path it resolves the long path through the translation table and sends
M23 with the lower-cased short path followed by M24, and when the lookup
fails it uses the supplied SD path itself as the short path. -/
theorem start_print_refusal_and_sd_resolution (env : SPEnv) (path_string : String)
    (parts : List String) :
    ((env.printing_state ≠ none ∨ env.override_state ≠ none) →
      (startPrintRun env path_string parts).1 = []
      ∧ ∃ msg, (startPrintRun env path_string parts).2 = Except.error msg)
    ∧ (env.printing_state = none → env.override_state = none →
        file_is_on_sd parts = true → env.open_ok = true →
        ∀ short, env.lfn_to_sfn_paths.lookup (sdPathOf parts) = some short →
          startPrintRun env path_string parts =
            ([SPEffect.expectPrinting,
              SPEffect.sendGcode ("M23 " ++ short.toLower),
              SPEffect.sendGcode "M24", SPEffect.setFilePath,
              SPEffect.printingCall, SPEffect.stopExpecting], Except.ok ()))
    ∧ (env.printing_state = none → env.override_state = none →
        file_is_on_sd parts = true → env.open_ok = true →
        env.lfn_to_sfn_paths.lookup (sdPathOf parts) = none →
          startPrintRun env path_string parts =
            ([SPEffect.expectPrinting,
              SPEffect.sendGcode ("M23 " ++ (sdPathOf parts).toLower),
              SPEffect.sendGcode "M24", SPEffect.setFilePath,
              SPEffect.printingCall, SPEffect.stopExpecting], Except.ok ())) := by
  refine ⟨?_, ?_, ?_⟩
  · intro hpre
    unfold startPrintRun
    rcases hpre with hp | ho
    · rw [if_pos hp]
      exact ⟨rfl, ⟨_, rfl⟩⟩
    · by_cases hp : env.printing_state ≠ none
      · rw [if_pos hp]
        exact ⟨rfl, ⟨_, rfl⟩⟩
      · rw [if_neg hp, if_pos ho]
        exact ⟨rfl, ⟨_, rfl⟩⟩
  · intro hp ho hsd hok short hshort
    unfold startPrintRun load_file
    simp [hp, ho, hsd, hok, hshort]
  · intro hp ho hsd hok hshort
    unfold startPrintRun load_file
    simp [hp, ho, hsd, hok, hshort]

/-- C5 witness: concrete refusal while printing, and a concrete SD print
with a translated short path. -/
theorem start_print_refusal_and_sd_resolution_witness :
    (let envP : SPEnv := ⟨some State.PRINTING, none, State.PRINTING, [], true, true⟩
     (startPrintRun envP "/x" ["/", "x"]).1 = []
     ∧ ∃ msg, (startPrintRun envP "/x" ["/", "x"]).2 = Except.error msg)
    ∧ (let envS : SPEnv :=
        ⟨none, none, State.READY, [("/Dir/File.gcode", "/DIR/FILE.GCO")], true, true⟩
       startPrintRun envS "/SD Card/Dir/File.gcode" ["/", "SD Card", "Dir", "File.gcode"] =
         ([SPEffect.expectPrinting,
           SPEffect.sendGcode ("M23 " ++ ("/DIR/FILE.GCO").toLower),
           SPEffect.sendGcode "M24", SPEffect.setFilePath,
           SPEffect.printingCall, SPEffect.stopExpecting], Except.ok ())) :=
  ⟨(start_print_refusal_and_sd_resolution _ "/x" ["/", "x"]).1
      (Or.inl (by decide)),
   (start_print_refusal_and_sd_resolution _ "/SD Card/Dir/File.gcode"
      ["/", "SD Card", "Dir", "File.gcode"]).2.1 rfl rfl (by decide) rfl
      "/DIR/FILE.GCO" (by decide)⟩

/-- Computable model of Python str.split("\n"), at the character level so
that concrete runs reduce in the kernel. -/
def pySplitNewlines (s : String) : List String :=
  (s.data.splitOn (Char.ofNat 10)).map String.mk

/-- Computable model of Python str.strip(): drop leading and trailing
whitespace. -/
def pyStrip (s : String) : String :=
  String.mk (((s.data.dropWhile Char.isWhitespace).reverse.dropWhile
    Char.isWhitespace).reverse)

/-- Computable model of Python str.replace("\r", ""): drop every carriage
return. -/
def pyRemoveCR (s : String) : String :=
  String.mk (s.data.filter (fun c => c ≠ Char.ofNat 13))

/-- Line list built by ExecuteGcode._run_command: split on newlines, keep
the lines that are non-empty after stripping, and enqueue each kept line
with only its carriage returns removed. -/
def lineListOf (gcode : String) : List String :=
  ((pySplitNewlines gcode).filter (fun line => pyStrip line ≠ "")).map pyRemoveCR

/-- Follows the claim wording for the refinement comparison: "splits on
newlines, strips, and enqueues each non-empty line", read as enqueueing
the stripped lines. -/
def claimed_line_list (gcode : String) : List String :=
  ((pySplitNewlines gcode).map pyStrip).filter (fun line => line ≠ "")

/-- Per-instruction outcome observed by ExecuteGcode: whether the
instruction got confirmed and whether its rejection regex matched. -/
structure GcodeOutcome where
  confirmed : Bool
  matched : Bool
deriving DecidableEq, Repr

/-- Observable actions of ExecuteGcode._run_command. -/
inductive EGEffect where
  | expectDefault
  | enqueueFrontWithRejection (line : String)
  | stopExpecting
deriving DecidableEq, Repr

/-- Failure message of the rejected-instruction branch. -/
def unknownCommandMsg (gcode : String) : String :=
  "Unknown command \x27" ++ gcode ++ "\x27)"

/-- Waiting loop of ExecuteGcode: fail on the first instruction that is
not confirmed (interrupted) or whose rejection regex matched. -/
def processInstructions (gcode : String) :
    List (String × GcodeOutcome) → Except String Unit
  | [] => Except.ok ()
  | (_, o) :: rest =>
    if o.confirmed = false then Except.error "Command interrupted"
    else if o.matched = true then Except.error (unknownCommandMsg gcode)
    else processInstructions gcode rest

/-- ExecuteGcode._run_command: refuse in PRINTING, ATTENTION or ERROR
unless forced; expect a default-attributed change; enqueue the line list
at the front with the rejection regex attached; wait on each instruction
failing at the first interruption or rejection; stop expecting when all
confirmed. -/
def executeGcodeRun (force : Bool) (current_state : State) (gcode : String)
    (outcomes : Nat → GcodeOutcome) : List EGEffect × Except String Unit :=
  if ¬force ∧ (current_state = State.PRINTING ∨ current_state = State.ATTENTION
      ∨ current_state = State.ERROR) then
    ([], Except.error ("Can\x27t run \x27" ++ gcode ++ "\x27 while in f"
      ++ stateName current_state ++ " state."))
  else
    let lines := lineListOf gcode
    let effs := EGEffect.expectDefault ::
      lines.map (fun l => EGEffect.enqueueFrontWithRejection l)
    let pairs := lines.enum.map (fun p => (p.2, outcomes p.1))
    match processInstructions gcode pairs with
    | Except.ok _ => (effs ++ [EGEffect.stopExpecting], Except.ok ())
    | Except.error msg => (effs, Except.error msg)

/-- Lines enqueued during a run. -/
def enqueuedLines (effs : List EGEffect) : List String :=
  effs.filterMap (fun e =>
    match e with
    | EGEffect.enqueueFrontWithRejection l => some l
    | _ => none)

/-- C6 counterexample: the claim reads "splits on newlines, strips, and
enqueues each non-empty line", but on the input " G28" the code enqueues
the unstripped line " G28" (only carriage returns are removed), not the
stripped "G28": the enqueued list differs from the claimed stripped
list. -/
theorem execute_gcode_strip_counterexample :
    lineListOf " G28" = [" G28"]
    ∧ claimed_line_list " G28" = ["G28"]
    ∧ enqueuedLines (executeGcodeRun true State.READY " G28"
        (fun _ => ⟨true, false⟩)).1 = [" G28"]
    ∧ lineListOf " G28" ≠ claimed_line_list " G28" :=
  ⟨by decide, by decide, by decide, by decide⟩

lemma processInstructions_eq (gcode : String) (l : List (String × GcodeOutcome)) :
    processInstructions gcode l =
      (match l.find? (fun p => !p.2.confirmed || p.2.matched) with
       | none => Except.ok ()
       | some p =>
         Except.error (if p.2.confirmed = false then "Command interrupted"
           else unknownCommandMsg gcode)) := by
  induction l with
  | nil => rfl
  | cons p rest ih =>
    show processInstructions gcode (p :: rest) = _
    unfold processInstructions
    by_cases h1 : p.2.confirmed = false
    · simp [List.find?_cons, h1]
    · by_cases h2 : p.2.matched = true
      · simp [List.find?_cons, h1, h2]
      · simp only [List.find?_cons]
        simp [h1, h2, ih]

lemma enqueuedLines_append (a b : List EGEffect) :
    enqueuedLines (a ++ b) = enqueuedLines a ++ enqueuedLines b := by
  simp [enqueuedLines]

lemma enqueuedLines_map (lines : List String) :
    enqueuedLines (lines.map (fun l => EGEffect.enqueueFrontWithRejection l)) = lines := by
  induction lines with
  | nil => rfl
  | cons l rest ih => simp [enqueuedLines] at *; exact ih

lemma filterMap_comp_enqueue (lines : List String) :
    List.filterMap ((fun e =>
        match e with
        | EGEffect.enqueueFrontWithRejection l => some l
        | _ => none) ∘ fun l => EGEffect.enqueueFrontWithRejection l) lines = lines := by
  induction lines with
  | nil => rfl
  | cons l rest ih => simp [List.filterMap_cons, ih]

/-- C6 (amended): in non-force mode ExecuteGcode fails with no enqueue
while the reported state is PRINTING, ATTENTION or ERROR; otherwise it
splits on newlines and enqueues, at the front of the queue with the
rejection regex attached, every line that is non-empty after stripping,
keeping the line itself with only carriage returns removed; the run fails
exactly at the first instruction that is interrupted (not confirmed) or
rejected (regex matched), and succeeds when there is none. -/
theorem execute_gcode_amended (force : Bool) (st : State) (gcode : String)
    (outcomes : Nat → GcodeOutcome) :
    (¬force ∧ (st = State.PRINTING ∨ st = State.ATTENTION ∨ st = State.ERROR) →
      (executeGcodeRun force st gcode outcomes).1 = []
      ∧ ∃ msg, (executeGcodeRun force st gcode outcomes).2 = Except.error msg)
    ∧ ((force ∨ ¬(st = State.PRINTING ∨ st = State.ATTENTION ∨ st = State.ERROR)) →
        enqueuedLines (executeGcodeRun force st gcode outcomes).1 = lineListOf gcode
        ∧ (executeGcodeRun force st gcode outcomes).2 =
            (match ((lineListOf gcode).enum.map
                (fun p => (p.2, outcomes p.1))).find?
                (fun p => !p.2.confirmed || p.2.matched) with
             | none => Except.ok ()
             | some p =>
               Except.error (if p.2.confirmed = false then "Command interrupted"
                 else unknownCommandMsg gcode))) := by
  constructor
  · intro h
    unfold executeGcodeRun
    rw [if_pos h]
    exact ⟨rfl, ⟨_, rfl⟩⟩
  · intro hn
    have hcond : ¬(¬(force = true) ∧ (st = State.PRINTING ∨ st = State.ATTENTION
        ∨ st = State.ERROR)) := by
      rcases hn with h | h
      · exact fun hc => hc.1 h
      · exact fun hc => h hc.2
    constructor
    · unfold executeGcodeRun
      rw [if_neg hcond]
      dsimp only
      cases hres : processInstructions gcode
          ((lineListOf gcode).enum.map (fun p => (p.2, outcomes p.1))) with
      | ok v =>
        simp [hres, enqueuedLines_append, enqueuedLines_map, enqueuedLines,
          filterMap_comp_enqueue]
      | error msg =>
        simp [hres, enqueuedLines_append, enqueuedLines_map, enqueuedLines,
          filterMap_comp_enqueue]
    · have h2 : (executeGcodeRun force st gcode outcomes).2 =
          processInstructions gcode
            ((lineListOf gcode).enum.map (fun p => (p.2, outcomes p.1))) := by
        unfold executeGcodeRun
        rw [if_neg hcond]
        dsimp only
        cases hres : processInstructions gcode
            ((lineListOf gcode).enum.map (fun p => (p.2, outcomes p.1))) with
        | ok v => simp [hres]
        | error msg => simp [hres]
      rw [h2, processInstructions_eq]

/-- C6 witness: a forced two-line program with a rejected second line is
enqueued unstripped and fails with the unknown-command error. -/
theorem execute_gcode_amended_witness :
    enqueuedLines (executeGcodeRun true State.PRINTING "G28\n M114 \n\n"
        (fun i => if i = 0 then ⟨true, false⟩ else ⟨true, true⟩)).1
      = ["G28", " M114 "]
    ∧ (executeGcodeRun true State.PRINTING "G28\n M114 \n\n"
        (fun i => if i = 0 then ⟨true, false⟩ else ⟨true, true⟩)).2
      = Except.error (unknownCommandMsg "G28\n M114 \n\n") := by
  have t := (execute_gcode_amended true State.PRINTING "G28\n M114 \n\n"
    (fun i => if i = 0 then ⟨true, false⟩ else ⟨true, true⟩)).2 (Or.inl rfl)
  refine ⟨t.1.trans (by decide), t.2.trans rfl⟩

/-- WatchedItem scheduling state from info_updater.py: value, validity,
queue flag, intervals, and the two timer deadlines (none stands for the
Python math.inf sentinel, meaning no timer pending). -/
structure WItem (α : Type) where
  value : Option α
  valid : Bool
  scheduled : Bool
  interval : Option Nat
  on_fail_interval : Option Nat
  timeout : Option Nat
  invalidate_at : Option Nat
  times_out_at : Option Nat
deriving DecidableEq, Repr

/-- Signals a WatchedItem can emit (write_function calls included as an
observable effect). -/
inductive USignal where
  | becameValid
  | becameInvalid
  | timedOut
  | errorRefreshing
  | validationError
  | valueChanged
  | valErrTimeout
  | writeCalled
deriving DecidableEq, Repr

/-- ItemUpdater.schedule_invalidation: a no-op while another invalidation
is pending unless forced; uses the item interval when none is supplied and
raises when neither exists; otherwise stores now + interval and pushes the
timer.  The returned list holds the deadlines pushed onto
invalidate_timers. -/
def schedule_invalidation {α : Type} (now : Nat) (item : WItem α)
    (interval : Option Nat) (force : Bool) :
    Except String (WItem α × List Nat) :=
  if item.invalidate_at ≠ none ∧ ¬force then
    Except.ok (item, [])
  else
    match (match interval with
           | some i => some i
           | none => item.interval) with
    | none => Except.error "No interval specified and no default available"
    | some i =>
      Except.ok ({ item with invalidate_at := some (now + i) }, [now + i])

/-- ItemUpdater._gather_error_reschedule: reschedule the refresh only when
on_fail_interval is set (the interval is then always supplied, so the
schedule call cannot raise; the error arm is unreachable). -/
def gather_error_reschedule {α : Type} (now : Nat) (item : WItem α) :
    WItem α × List Nat :=
  match item.on_fail_interval with
  | some i =>
    match schedule_invalidation now item (some i) false with
    | Except.ok r => r
    | Except.error _ => (item, [])
  | none => (item, [])

/-- ItemUpdater._set_value: record the value, call the write function,
mark valid, clear the timeout timer, force-reschedule the periodic
invalidation when an interval is set, and emit became_valid and
value_changed edges as applicable. -/
def _set_value {α : Type} [DecidableEq α] (now : Nat) (item : WItem α)
    (value : α) : WItem α × List USignal × List Nat :=
  let changed := some value ≠ item.value
  let item1 := { item with value := some value }
  let was_invalid := item1.valid = false
  let item2 := { item1 with valid := true, times_out_at := none }
  let r :=
    match item2.interval with
    | some _ =>
      match schedule_invalidation now item2 none true with
      | Except.ok r => r
      | Except.error _ => (item2, [])
    | none => (item2, [])
  (r.1,
   [USignal.writeCalled]
     ++ (if was_invalid then [USignal.becameValid] else [])
     ++ (if changed then [USignal.valueChanged] else []),
   r.2)

/-- ItemUpdater.set_value: run the validation function (which can return
False or raise, modelled as none); on failure emit the validation-error
and combined timeout signals and take the retry path; on success write
through _set_value. -/
def set_value {α : Type} [DecidableEq α] (now : Nat)
    (validation_function : α → Option Bool) (item : WItem α) (value : α) :
    WItem α × List USignal × List Nat :=
  match validation_function value with
  | some true => _set_value now item value
  | _ =>
    let r := gather_error_reschedule now item
    (r.1, [USignal.validationError, USignal.valErrTimeout], r.2)

/-- C10: a set_value call whose validation fails (returns false or raises)
leaves the stored value and the validity flag unchanged; its only effects
are the validation-error and combined timeout signals plus, when
on_fail_interval is set and no invalidation is already pending, the
scheduling of one future invalidation; every other item field is left
untouched. -/
theorem set_value_validation_failure_no_mutation {α : Type} [DecidableEq α]
    (now : Nat) (validation_function : α → Option Bool) (item : WItem α)
    (value : α) (h : validation_function value ≠ some true) :
    (set_value now validation_function item value).1.value = item.value
    ∧ (set_value now validation_function item value).1.valid = item.valid
    ∧ (set_value now validation_function item value).2.1
        = [USignal.validationError, USignal.valErrTimeout]
    ∧ (item.on_fail_interval = none →
        (set_value now validation_function item value).1 = item
        ∧ (set_value now validation_function item value).2.2 = [])
    ∧ (∀ i, item.on_fail_interval = some i →
        (item.invalidate_at = none →
          (set_value now validation_function item value).1
            = { item with invalidate_at := some (now + i) }
          ∧ (set_value now validation_function item value).2.2 = [now + i])
        ∧ (item.invalidate_at ≠ none →
          (set_value now validation_function item value).1 = item
          ∧ (set_value now validation_function item value).2.2 = [])) := by
  have hbranch : set_value now validation_function item value =
      ((gather_error_reschedule now item).1,
       [USignal.validationError, USignal.valErrTimeout],
       (gather_error_reschedule now item).2) := by
    unfold set_value
    cases hval : validation_function value with
    | none => rfl
    | some b =>
      cases b with
      | false => rfl
      | true => exact absurd hval h
  have hg : (item.on_fail_interval = none →
        gather_error_reschedule now item = (item, []))
      ∧ (∀ i, item.on_fail_interval = some i →
          (item.invalidate_at = none →
            gather_error_reschedule now item
              = ({ item with invalidate_at := some (now + i) }, [now + i]))
          ∧ (item.invalidate_at ≠ none →
            gather_error_reschedule now item = (item, []))) := by
    constructor
    · intro hof
      unfold gather_error_reschedule
      rw [hof]
    · intro i hof
      constructor
      · intro hia
        unfold gather_error_reschedule schedule_invalidation
        rw [hof]
        simp [hia]
      · intro hia
        unfold gather_error_reschedule schedule_invalidation
        rw [hof]
        simp [hia]
  rw [hbranch]
  refine ⟨?_, ?_, rfl, ?_, ?_⟩
  · rcases hof : item.on_fail_interval with _ | i
    · rw [hg.1 hof]
    · rcases hia : item.invalidate_at with _ | t
      · rw [(hg.2 i hof).1 hia]
      · rw [(hg.2 i hof).2 (by simp [hia])]
  · rcases hof : item.on_fail_interval with _ | i
    · rw [hg.1 hof]
    · rcases hia : item.invalidate_at with _ | t
      · rw [(hg.2 i hof).1 hia]
      · rw [(hg.2 i hof).2 (by simp [hia])]
  · intro hof
    rw [hg.1 hof]
    exact ⟨rfl, rfl⟩
  · intro i hof
    refine ⟨fun hia => ?_, fun hia => ?_⟩
    · rw [(hg.2 i hof).1 hia]
      exact ⟨rfl, rfl⟩
    · rw [(hg.2 i hof).2 hia]
      exact ⟨rfl, rfl⟩

/-- C10 witness: a failing validation on a concrete item keeps the value
and validity, emits the two signals, and schedules the retry at
now + on_fail_interval. -/
theorem set_value_validation_failure_no_mutation_witness :
    ((fun _ : Nat => some false) 7 ≠ some true)
    ∧ (set_value 100 (fun _ : Nat => some false)
        (⟨some 5, true, false, none, some 5, none, none, none⟩ : WItem Nat) 7).1
      = { (⟨some 5, true, false, none, some 5, none, none, none⟩ : WItem Nat) with
            invalidate_at := some (100 + 5) }
    ∧ (set_value 100 (fun _ : Nat => some false)
        (⟨some 5, true, false, none, some 5, none, none, none⟩ : WItem Nat) 7).2.1
      = [USignal.validationError, USignal.valErrTimeout] := by
  have t := set_value_validation_failure_no_mutation 100
    (fun _ : Nat => some false)
    (⟨some 5, true, false, none, some 5, none, none, none⟩ : WItem Nat) 7
    (by decide)
  exact ⟨by decide, ((t.2.2.2.2 5 rfl).1 rfl).1, t.2.2.1⟩
